import Mathlib

/-!
# Verification of the nanostore-ipc-bridge synchronization core

Shallow embedding of the library's privileged-side coordinator
(`initNanoStoreIPC` in `main.ts`), its RPC layer (`initServices` in
`services.ts`) and the non-privileged peer proxy (`syncedAtom.ts`),
with theorems settling the specified properties.

Values stored in entities are abstracted by a type parameter `α`;
serializability of a value (the `structuredClone` check) is abstracted
by a boolean predicate supplied to the model.
-/

namespace NanoBridge

/-- The stable error codes of `NanoStoreIPCError` (`internal/types.ts`). -/
inductive ErrorCode where
  | STORE_NOT_FOUND
  | RENDERER_WRITE_DISABLED
  | SERIALIZATION_FAILED
  | IPC_FAILED
  | SERVICE_NOT_FOUND
  | SERVICE_METHOD_NOT_FOUND
  | ALREADY_INITIALIZED
  deriving Repr, DecidableEq

/-- A snapshot `{id, rev, value}` — the wire unit for entity state. -/
structure Snapshot (α : Type) where
  id : String
  rev : Nat
  value : α
  deriving Repr, DecidableEq

/-! ## Peer proxy (`syncedAtom.ts`, renderer branch)

State of one renderer-side proxy atom: `lastRev` starts at `-1`
(hence `Int`), the revisions carried by snapshots built on the main
side are naturals.  `applied` is a ghost trace of the revisions of the
snapshots actually applied to the local value holder. -/

structure ProxyState (α : Type) where
  lastRev : Int
  localValue : α
  applied : List Nat
  readyForOutbound : Bool
  deriving Repr, DecidableEq

/-- Initial proxy state: `lastRev = -1`, local atom holds the
caller-supplied default, nothing applied, outbound suppressed. -/
def initProxy {α : Type} (initial : α) : ProxyState α :=
  { lastRev := -1, localValue := initial, applied := [], readyForOutbound := false }

/-- The push-path callback (`ipc.subscribe` handler in `syncedAtom`):
`if (snap.rev <= lastRev) return;` then apply and record. -/
def applyPush {α : Type} (s : ProxyState α) (snap : Snapshot α) : ProxyState α :=
  if (snap.rev : Int) ≤ s.lastRev then s
  else
    { lastRev := (snap.rev : Int), localValue := snap.value,
      applied := s.applied ++ [snap.rev], readyForOutbound := true }

/-- The pull-path callback (`ipc.get(id).then` handler in `syncedAtom`);
textually the same gate as the push path. -/
def applyPull {α : Type} (s : ProxyState α) (snap : Snapshot α) : ProxyState α :=
  if (snap.rev : Int) ≤ s.lastRev then s
  else
    { lastRev := (snap.rev : Int), localValue := snap.value,
      applied := s.applied ++ [snap.rev], readyForOutbound := true }

/-- An incoming snapshot, tagged by the path it arrived on. -/
inductive Incoming (α : Type) where
  | push (snap : Snapshot α)
  | pull (snap : Snapshot α)
  deriving Repr, DecidableEq

/-- Deliver one incoming snapshot to the proxy. -/
def stepIncoming {α : Type} (s : ProxyState α) : Incoming α → ProxyState α
  | .push snap => applyPush s snap
  | .pull snap => applyPull s snap

/-- Deliver a sequence of incoming snapshots to the proxy. -/
def runIncoming {α : Type} (s : ProxyState α) (evs : List (Incoming α)) : ProxyState α :=
  evs.foldl stepIncoming s

/-- Invariant tying the ghost trace to the gate variable: the applied
revisions are strictly increasing and all bounded by `lastRev`. -/
def proxyInv {α : Type} (s : ProxyState α) : Prop :=
  s.applied.Pairwise (· < ·) ∧ ∀ r ∈ s.applied, (r : Int) ≤ s.lastRev

/-- What a caller-supplied `validateValue` returns — the declared type
is `boolean | Promise<boolean>` (`SyncedAtomOptions.validateValue`). -/
inductive Verdict where
  | sync (b : Bool)
  | promise (b : Bool)
  deriving Repr, DecidableEq

/-- Observable outcome of one run of the local-write listener: values
handed to `ipc.set`, and errors surfaced through `onError`. -/
structure WriteOutcome (α : Type) where
  transmitted : List α
  errors : List ErrorCode
  deriving Repr, DecidableEq

/-- The local-write listener installed by `syncedAtom` on the renderer
atom.  Guards in source order (`rendererCanSet`, `readyForOutbound`,
`applyingRemote`), then the optional validator.  The source tests
`isValid === false`: only a validator verdict that is the synchronous
boolean `false` is recognised as a rejection; a `Promise` (whatever it
resolves to) compares unequal to `false`, so the write proceeds. -/
def localWriteListener {α : Type} (rendererCanSet readyForOutbound applyingRemote : Bool)
    (validate : Option (α → Verdict)) (v : α) : WriteOutcome α :=
  if !rendererCanSet then ⟨[], []⟩
  else if !readyForOutbound then ⟨[], []⟩
  else if applyingRemote then ⟨[], []⟩
  else
    match validate with
    | some f =>
        if f v = Verdict.sync false then ⟨[], [ErrorCode.SERIALIZATION_FAILED]⟩
        else ⟨[v], []⟩
    | none => ⟨[v], []⟩

/-! ## Privileged-side coordinator (`initNanoStoreIPC` in `main.ts`)

The underlying nanostore value holder is external; it is modelled by
its `get/set/subscribe` contract: a current value plus whether it
exposes a `set` function (`ns:set` probes `typeof store.set`).
A `StoreEntry` is the ledger row kept in the coordinator's `stores`
map: the wrapped holder, its revision (starting at 0), and a ghost
count of the change subscriptions installed on the holder. -/

structure StoreModel (α : Type) where
  value : α
  hasSet : Bool
  deriving Repr, DecidableEq

structure StoreEntry (α : Type) where
  value : α
  hasSet : Bool
  rev : Nat
  subCount : Nat
  deriving Repr, DecidableEq

/-- Coordinator state: the `stores` map (a JS `Map`, modelled as an
insertion-ordered association list) and the deferred-registration
queue (`WF_NS_QUEUE`). -/
structure MainState (α : Type) where
  stores : List (String × StoreEntry α)
  queue : List (String × StoreModel α)
  deriving Repr, DecidableEq

/-- Configuration flags of `initNanoStoreIPC` relevant here. -/
structure Config where
  allowRendererSet : Bool
  validateSerialization : Bool
  deriving Repr, DecidableEq

/-- `stores.get(id)` on the association list. -/
def lookupStore {α : Type} : List (String × StoreEntry α) → String → Option (StoreEntry α)
  | [], _ => none
  | (k, e) :: rest, id => if k = id then some e else lookupStore rest id

/-- `Map.set` on an existing key keeps its position. -/
def updateStore {α : Type} :
    List (String × StoreEntry α) → String → StoreEntry α → List (String × StoreEntry α)
  | [], _, _ => []
  | (k, e) :: rest, id, e' =>
      if k = id then (k, e') :: rest else (k, e) :: updateStore rest id e'

/-- Number of ledger rows carrying a given key. -/
def keyCount {α : Type} (l : List (String × StoreEntry α)) (id : String) : Nat :=
  l.countP (fun p => decide (p.1 = id))

/-- Well-formedness of the `stores` map, maintained by construction:
keys are unique (it is a `Map`) and every row carries exactly one
value-holder subscription. -/
def wfStores {α : Type} (l : List (String × StoreEntry α)) : Prop :=
  (l.map Prod.fst).Nodup ∧ ∀ p ∈ l, (p : String × StoreEntry α).2.subCount = 1

/-- `registerStore(id, store)`: duplicate keys are skipped; otherwise a
ledger row is created at revision 0 and exactly one change
subscription is installed on the holder. -/
def registerStore {α : Type} (s : MainState α) (id : String) (m : StoreModel α) :
    MainState α :=
  match lookupStore s.stores id with
  | some _ => s
  | none =>
      { s with stores := s.stores ++ [(id, ⟨m.value, m.hasSet, 0, 1⟩)] }

/-- Result of delivering one value-holder change notification: the new
coordinator state, the snapshots broadcast, and the errors surfaced
through the error channel (`handleError`). -/
structure NotifyOut (α : Type) where
  state : MainState α
  sent : List (Snapshot α)
  errors : List ErrorCode
  deriving Repr, DecidableEq

/-- The subscription callback installed by `registerStore`: on a change
of store `id` to value `v`, increment the revision, then (with the
serialization guard on) validate the value with the
`structuredClone`-equivalent predicate `ser`; on failure surface
`SERIALIZATION_FAILED` and skip the broadcast; otherwise broadcast the
snapshot.  A notification for an unregistered id has no subscription
to run and does nothing. -/
def notify {α : Type} (cfg : Config) (ser : α → Bool) (s : MainState α)
    (id : String) (v : α) : NotifyOut α :=
  match lookupStore s.stores id with
  | none => ⟨s, [], []⟩
  | some e =>
      let e' : StoreEntry α := { e with rev := e.rev + 1, value := v }
      let s' : MainState α := { s with stores := updateStore s.stores id e' }
      if cfg.validateSerialization && !(ser v) then
        ⟨s', [], [ErrorCode.SERIALIZATION_FAILED]⟩
      else
        ⟨s', [⟨id, e'.rev, v⟩], []⟩

/-- Outcome of an `ns:get` invoke: a snapshot, or the thrown error. -/
inductive GetResult (α : Type) where
  | found (snap : Snapshot α)
  | errorThrown (code : ErrorCode)
  deriving Repr, DecidableEq

/-- The `ns:get` handler: unknown id throws `STORE_NOT_FOUND`,
otherwise returns `{id, rev, value}`.  The handler never mutates the
coordinator state. -/
def nsGet {α : Type} (s : MainState α) (id : String) : GetResult α :=
  match lookupStore s.stores id with
  | none => .errorThrown ErrorCode.STORE_NOT_FOUND
  | some e => .found ⟨id, e.rev, e.value⟩

/-- Completion of an `ns:set` invoke: resolved void, or thrown error. -/
inductive SetResult where
  | ok
  | errorThrown (code : ErrorCode)
  deriving Repr, DecidableEq

/-- Outcome of an `ns:set` invoke: its completion, the coordinator
state afterwards, the snapshots broadcast while servicing it, and the
errors surfaced through the error channel. -/
structure SetOut (α : Type) where
  result : SetResult
  state : MainState α
  sent : List (Snapshot α)
  errors : List ErrorCode
  deriving Repr, DecidableEq

/-- The `ns:set` handler: first the `allowRendererSet` guard
(`RENDERER_WRITE_DISABLED`), then the lookup (`STORE_NOT_FOUND`); both
failures call `handleError` and throw, leaving the ledger untouched.
Otherwise the value is handed to the holder's `set` — if the holder
exposes one — whose change notification is what updates the ledger;
a holder without `set` makes the write a silent no-op. -/
def nsSet {α : Type} (cfg : Config) (ser : α → Bool) (s : MainState α)
    (id : String) (v : α) : SetOut α :=
  if !cfg.allowRendererSet then
    ⟨.errorThrown ErrorCode.RENDERER_WRITE_DISABLED, s, [],
      [ErrorCode.RENDERER_WRITE_DISABLED]⟩
  else
    match lookupStore s.stores id with
    | none =>
        ⟨.errorThrown ErrorCode.STORE_NOT_FOUND, s, [], [ErrorCode.STORE_NOT_FOUND]⟩
    | some e =>
        if e.hasSet then
          let out := notify cfg ser s id v
          ⟨.ok, out.state, out.sent, out.errors⟩
        else
          ⟨.ok, s, [], []⟩

/-- Drain the deferred-registration queue: register each queued store
in insertion order, then clear the queue. -/
def drainQueue {α : Type} (s : MainState α) : MainState α :=
  let s' := s.queue.foldl (fun st p => registerStore st p.1 p.2) s
  { s' with queue := [] }

/-! ## Broadcast fan-out over the window set (`broadcast` in `main.ts`)

A peer (a `BrowserWindow`) is modelled by an identifier plus the two
facts the fan-out observes: whether it is already destroyed
(`win.isDestroyed()`) and whether `webContents.send` succeeds. -/

structure Peer where
  pid : Nat
  destroyed : Bool
  sendOk : Bool
  deriving Repr, DecidableEq

/-- Result of one fan-out: the window set afterwards, the peers the
snapshot was delivered to, and the per-peer errors surfaced. -/
structure FanoutOut where
  peers : List Peer
  delivered : List Peer
  errors : List ErrorCode
  deriving Repr, DecidableEq

/-- The send loop of `broadcast`: each remaining window is sent to
inside a `try`; a failure is reported (`IPC_FAILED`), the window is
deleted from the set, and the loop continues with the next window. -/
def sendLoop : List Peer → FanoutOut
  | [] => ⟨[], [], []⟩
  | p :: rest =>
      let out := sendLoop rest
      if p.sendOk then ⟨p :: out.peers, p :: out.delivered, out.errors⟩
      else ⟨out.peers, out.delivered, ErrorCode.IPC_FAILED :: out.errors⟩

/-- `broadcast(snap)`: first prune every window already destroyed,
then run the send loop over the surviving windows. -/
def broadcastFan (peers : List Peer) : FanoutOut :=
  sendLoop (peers.filter (fun p => !p.destroyed))

/-! ## RPC layer (`initServices` in `services.ts`)

Handlers and hooks are arbitrary functions; a raising JS function is
modelled as returning `Except.error` with the reconstructed error's
`name` and `message`.  `ρ` is the type of handler arguments/results. -/

/-- A thrown JS error as reconstructed by the catch block
(`err instanceof Error ? err : new Error(String(err))`). -/
structure JsError where
  name : String
  message : String
  deriving Repr, DecidableEq

/-- The error half of a `ServiceCallResult` envelope (the optional
stack trace is not modelled). -/
structure ErrInfo where
  message : String
  code : String
  deriving Repr, DecidableEq

/-- A `ServiceCallResult` envelope: `{success:true, result}` or
`{success:false, error}`. -/
inductive CallResult (ρ : Type) where
  | success (result : Option ρ)
  | failure (error : ErrInfo)
  deriving Repr, DecidableEq

/-- Ghost trace of what ran while servicing one `svc:call`. -/
inductive CallEvent (ρ : Type) where
  | beforeRan
  | handlerRan
  | afterRan (result : Option ρ)
  deriving Repr, DecidableEq

/-- Is this event an invocation of the after-hook? -/
def isAfterEvent {ρ : Type} : CallEvent ρ → Bool
  | .afterRan _ => true
  | _ => false

/-- A registered service: its handler table and optional hooks
(`ServiceDefinition` in `internal/types.ts`; the `duration` argument
of `afterAll` is not modelled). -/
structure ServiceDef (ρ : Type) where
  handlers : List (String × (List ρ → Except JsError ρ))
  beforeAll : Option (String → List ρ → Except JsError Unit)
  afterAll : Option (String → Option ρ → Except JsError Unit)

/-- `services.get(serviceId)`. -/
def lookupService {ρ : Type} :
    List (String × ServiceDef ρ) → String → Option (ServiceDef ρ)
  | [], _ => none
  | (k, v) :: rest, sid => if k = sid then some v else lookupService rest sid

/-- `service.definition.handlers[methodName]` plus the
`typeof handler === "function"` check. -/
def lookupHandler {ρ : Type} :
    List (String × (List ρ → Except JsError ρ)) → String →
      Option (List ρ → Except JsError ρ)
  | [], _ => none
  | (k, h) :: rest, m => if k = m then some h else lookupHandler rest m

/-- The catch block of the `svc:call` handler: look the service up
again; if it has an after-hook, invoke it with `undefined` as the
result (its own failure is swallowed by the inner `try {} catch {}`);
return the failure envelope built from the thrown error. -/
def catchPath {ρ : Type} (services : List (String × ServiceDef ρ)) (sid : String)
    (evs : List (CallEvent ρ)) (e : JsError) : CallResult ρ × List (CallEvent ρ) :=
  let evs' :=
    match lookupService services sid with
    | some svc =>
        match svc.afterAll with
        | some _ => evs ++ [CallEvent.afterRan none]
        | none => evs
    | none => evs
  (CallResult.failure ⟨e.message, e.name⟩, evs')

/-- The handler/after-hook part of the `try` block: run the handler;
on success run the after-hook with the result; any raise goes to the
catch block. -/
def runHandler {ρ : Type} (services : List (String × ServiceDef ρ)) (sid mname : String)
    (args : List ρ) (svc : ServiceDef ρ) (h : List ρ → Except JsError ρ)
    (evs : List (CallEvent ρ)) : CallResult ρ × List (CallEvent ρ) :=
  let evs₁ := evs ++ [CallEvent.handlerRan]
  match h args with
  | .error e => catchPath services sid evs₁ e
  | .ok result =>
      match svc.afterAll with
      | none => (CallResult.success (some result), evs₁)
      | some a =>
          let evs₂ := evs₁ ++ [CallEvent.afterRan (some result)]
          match a mname (some result) with
          | .error e => catchPath services sid evs₂ e
          | .ok _ => (CallResult.success (some result), evs₂)

/-- The `svc:call` invoke handler: resolve the service id, then the
method name — each miss returns a failure envelope without running any
hook or handler — then run before-hook, handler and after-hook, any
raise landing in the catch block. -/
def dispatch {ρ : Type} (services : List (String × ServiceDef ρ)) (sid mname : String)
    (args : List ρ) : CallResult ρ × List (CallEvent ρ) :=
  match lookupService services sid with
  | none =>
      (CallResult.failure ⟨"Service not found: " ++ sid, "SERVICE_NOT_FOUND"⟩, [])
  | some svc =>
      match lookupHandler svc.handlers mname with
      | none =>
          (CallResult.failure
            ⟨"Method not found: " ++ sid ++ "." ++ mname,
              "SERVICE_METHOD_NOT_FOUND"⟩, [])
      | some h =>
          match svc.beforeAll with
          | some b =>
              match b mname args with
              | .error e => catchPath services sid [CallEvent.beforeRan] e
              | .ok _ =>
                  runHandler services sid mname args svc h [CallEvent.beforeRan]
          | none => runHandler services sid mname args svc h []

/-- The hypothesis of the after-hook-on-failure property: the
before-hook raises, or the before-hook is absent or succeeds and the
handler raises. -/
def raisesBeforeHandler {ρ : Type} (svc : ServiceDef ρ) (mname : String)
    (args : List ρ) : Prop :=
  (∃ b e, svc.beforeAll = some b ∧ b mname args = Except.error e) ∨
  ((svc.beforeAll = none ∨ ∃ b, svc.beforeAll = some b ∧ b mname args = Except.ok ()) ∧
    ∃ h e, lookupHandler svc.handlers mname = some h ∧ h args = Except.error e)

/-- A concrete sample service whose handler raises, used to evaluate
the dispatch model on a failing call. -/
def boomSvc : ServiceDef Nat :=
  ⟨[("boom", fun _ => Except.error ⟨"Error", "kaputt"⟩)], none,
    some (fun _ _ => Except.ok ())⟩

/-! ## Supporting lemmas -/

theorem proxyInv_init {α : Type} (a : α) : proxyInv (initProxy a) := by
  constructor
  · simp [initProxy]
  · intro r hr; simp [initProxy] at hr

theorem proxyInv_applyPush {α : Type} {s : ProxyState α} (h : proxyInv s)
    (snap : Snapshot α) : proxyInv (applyPush s snap) := by
  unfold applyPush
  by_cases hle : (snap.rev : Int) ≤ s.lastRev
  · simpa [hle] using h
  · push_neg at hle
    simp only [if_neg (not_le.mpr hle)]
    obtain ⟨hpair, hbound⟩ := h
    constructor
    · rw [List.pairwise_append]
      refine ⟨hpair, by simp, ?_⟩
      intro a ha b hb
      simp only [List.mem_singleton] at hb
      subst hb
      have := hbound a ha
      exact_mod_cast lt_of_le_of_lt this hle
    · intro r hr
      rcases List.mem_append.mp hr with h1 | h2
      · exact le_of_lt (lt_of_le_of_lt (hbound r h1) hle)
      · simp only [List.mem_singleton] at h2
        subst h2; rfl

theorem proxyInv_applyPull {α : Type} {s : ProxyState α} (h : proxyInv s)
    (snap : Snapshot α) : proxyInv (applyPull s snap) :=
  proxyInv_applyPush h snap

theorem proxyInv_step {α : Type} {s : ProxyState α} (h : proxyInv s)
    (ev : Incoming α) : proxyInv (stepIncoming s ev) := by
  cases ev with
  | push snap => exact proxyInv_applyPush h snap
  | pull snap => exact proxyInv_applyPull h snap

theorem proxyInv_run {α : Type} {s : ProxyState α} (h : proxyInv s)
    (evs : List (Incoming α)) : proxyInv (runIncoming s evs) := by
  induction evs generalizing s with
  | nil => exact h
  | cons ev rest ih => exact ih (proxyInv_step h ev)

theorem lookupStore_append_self {α : Type} {l : List (String × StoreEntry α)}
    {id : String} (e : StoreEntry α) (h : lookupStore l id = none) :
    lookupStore (l ++ [(id, e)]) id = some e := by
  induction l with
  | nil => simp [lookupStore]
  | cons p rest ih =>
    obtain ⟨k, e'⟩ := p
    by_cases hk : k = id
    · simp [lookupStore, hk] at h
    · simp only [lookupStore, List.cons_append, if_neg hk] at h ⊢
      exact ih h

theorem lookupStore_append_of_some {α : Type} {l : List (String × StoreEntry α)}
    {id : String} {e : StoreEntry α} (l₂ : List (String × StoreEntry α))
    (h : lookupStore l id = some e) :
    lookupStore (l ++ l₂) id = some e := by
  induction l with
  | nil => simp [lookupStore] at h
  | cons p rest ih =>
    obtain ⟨k, e'⟩ := p
    by_cases hk : k = id
    · simp only [lookupStore, List.cons_append, if_pos hk] at h ⊢
      exact h
    · simp only [lookupStore, List.cons_append, if_neg hk] at h ⊢
      exact ih h

theorem lookupStore_update_self {α : Type} {l : List (String × StoreEntry α)}
    {id : String} {e : StoreEntry α} (e' : StoreEntry α)
    (h : lookupStore l id = some e) :
    lookupStore (updateStore l id e') id = some e' := by
  induction l with
  | nil => simp [lookupStore] at h
  | cons p rest ih =>
    obtain ⟨k, e₀⟩ := p
    by_cases hk : k = id
    · simp [lookupStore, updateStore, hk]
    · simp only [lookupStore, updateStore, if_neg hk] at h ⊢
      exact ih h

theorem lookupStore_none_notMem {α : Type} {l : List (String × StoreEntry α)}
    {id : String} (h : lookupStore l id = none) :
    ∀ p ∈ l, (p : String × StoreEntry α).1 ≠ id := by
  induction l with
  | nil => intro p hp; simp at hp
  | cons q rest ih =>
    obtain ⟨k, e⟩ := q
    by_cases hk : k = id
    · simp [lookupStore, hk] at h
    · intro p hp
      rcases List.mem_cons.mp hp with h1 | h2
      · subst h1; exact hk
      · exact ih (by simpa [lookupStore, hk] using h) p h2

theorem keyCount_eq_zero {α : Type} {l : List (String × StoreEntry α)} {id : String}
    (h : ∀ p ∈ l, (p : String × StoreEntry α).1 ≠ id) : keyCount l id = 0 := by
  unfold keyCount
  rw [List.countP_eq_zero]
  intro p hp
  simp [h p hp]

theorem keyCount_of_nodup {α : Type} {l : List (String × StoreEntry α)}
    {id : String} {e : StoreEntry α}
    (hnd : (l.map Prod.fst).Nodup) (h : lookupStore l id = some e) :
    keyCount l id = 1 := by
  induction l with
  | nil => simp [lookupStore] at h
  | cons q rest ih =>
    obtain ⟨k, e₀⟩ := q
    simp only [List.map_cons, List.nodup_cons] at hnd
    by_cases hk : k = id
    · subst hk
      have hz : keyCount rest k = 0 := by
        apply keyCount_eq_zero
        intro p hp hpk
        exact hnd.1 (by rw [← hpk]; exact List.mem_map_of_mem Prod.fst hp)
      unfold keyCount at hz ⊢
      simp [List.countP_cons, hz]
    · have h' : lookupStore rest id = some e := by
        simpa [lookupStore, hk] using h
      have hr := ih hnd.2 h'
      unfold keyCount at hr ⊢
      simp [List.countP_cons, hk, hr]

theorem sendLoop_spec (l : List Peer) :
    sendLoop l =
      ⟨l.filter (fun p => p.sendOk), l.filter (fun p => p.sendOk),
        (l.filter (fun p => !p.sendOk)).map (fun _ => ErrorCode.IPC_FAILED)⟩ := by
  induction l with
  | nil => rfl
  | cons p rest ih =>
    by_cases hp : p.sendOk
    · simp [sendLoop, ih, hp, List.filter_cons]
    · simp [sendLoop, ih, hp, List.filter_cons]

/-! ## Claim theorems -/

/-- **C1** — Revision gating on the peer proxy.  Both the push
(`subscribe`) and the pull (`get`) path apply a snapshot to the local
value holder exactly when its revision is strictly greater than
`lastRev`, and discard it otherwise; starting from the initial state
(`lastRev = -1`) the very first snapshot from either path is applied;
and over any sequence of incoming snapshots the trace of applied
revisions is strictly increasing (so no revision is applied twice and
no revision below an already-applied one is ever applied). -/
theorem C1_revision_gate {α : Type} (a : α) (s : ProxyState α)
    (snap : Snapshot α) (evs : List (Incoming α)) :
    (applyPush s snap =
      if (snap.rev : Int) ≤ s.lastRev then s
      else { lastRev := (snap.rev : Int), localValue := snap.value,
             applied := s.applied ++ [snap.rev], readyForOutbound := true }) ∧
    (applyPull s snap =
      if (snap.rev : Int) ≤ s.lastRev then s
      else { lastRev := (snap.rev : Int), localValue := snap.value,
             applied := s.applied ++ [snap.rev], readyForOutbound := true }) ∧
    (stepIncoming (initProxy a) (Incoming.push snap)).applied = [snap.rev] ∧
    (stepIncoming (initProxy a) (Incoming.pull snap)).applied = [snap.rev] ∧
    (stepIncoming (initProxy a) (Incoming.push snap)).localValue = snap.value ∧
    (runIncoming (initProxy a) evs).applied.Pairwise (· < ·) := by
  have hfirst : ¬ ((snap.rev : Int) ≤ (-1 : Int)) := by omega
  refine ⟨rfl, rfl, ?_, ?_, ?_, ?_⟩
  · simp [stepIncoming, applyPush, initProxy, hfirst]
  · simp [stepIncoming, applyPull, initProxy, hfirst]
  · simp [stepIncoming, applyPush, initProxy, hfirst]
  · exact (proxyInv_run (proxyInv_init a) evs).1

/-- **C2** — The ledger row is created at revision 0 by
`registerStore`, so before any write `ns:get` returns revision 0 with
the holder's initial value; a value-holder change notification
increments the revision by exactly 1; and that notification is the
only revision-changing path: `registerStore` leaves existing rows
untouched, and `ns:set` either leaves the state unchanged or changes
it exactly through the notification path. -/
theorem C2_revision_starts_at_zero {α : Type} (cfg : Config) (ser : α → Bool)
    (s : MainState α) (id : String) (m : StoreModel α)
    (h : lookupStore s.stores id = none) :
    nsGet (registerStore s id m) id = GetResult.found ⟨id, 0, m.value⟩ ∧
    (∀ (s' : MainState α) (id' : String) (v : α) (e : StoreEntry α),
      lookupStore s'.stores id' = some e →
      lookupStore (notify cfg ser s' id' v).state.stores id' =
        some ⟨v, e.hasSet, e.rev + 1, e.subCount⟩) ∧
    (∀ (s' : MainState α) (id' : String) (v : α),
      (nsSet cfg ser s' id' v).state = s' ∨
      (nsSet cfg ser s' id' v).state = (notify cfg ser s' id' v).state) ∧
    (∀ (id' : String) (e : StoreEntry α), lookupStore s.stores id' = some e →
      lookupStore (registerStore s id m).stores id' = some e) := by
  refine ⟨?_, ?_, ?_, ?_⟩
  · have := lookupStore_append_self (⟨m.value, m.hasSet, 0, 1⟩ : StoreEntry α) h
    simp [registerStore, h, nsGet, this]
  · intro s' id' v e he
    have hupd := lookupStore_update_self
      ({ e with rev := e.rev + 1, value := v }) he
    unfold notify
    rw [he]
    by_cases hc : cfg.validateSerialization && !(ser v)
    · simpa [hc] using hupd
    · simpa [hc] using hupd
  · intro s' id' v
    unfold nsSet
    by_cases hall : cfg.allowRendererSet
    · cases hl : lookupStore s'.stores id' with
      | none => simp [hall, hl]
      | some e =>
          by_cases hset : e.hasSet
          · simp [hall, hl, hset]
          · simp [hall, hl, hset]
    · simp [hall]
  · intro id' e he
    simp only [registerStore, h]
    exact lookupStore_append_of_some _ he

/-- **C3** — `svc:call` dispatch resolves the service id first and the
method name second: an unregistered id yields the failure envelope
with code `SERVICE_NOT_FOUND` (the spec's `ServiceNotFound`), a
registered id with an unknown method yields code
`SERVICE_METHOD_NOT_FOUND` (the spec's `MethodNotFound`); in both
cases the event trace is empty (no hook or handler ran) and the error
is returned as an envelope value, never thrown. -/
theorem C3_dispatch_resolution (ρ : Type) (services : List (String × ServiceDef ρ))
    (sid mname : String) (args : List ρ) :
    (lookupService services sid = none →
      dispatch services sid mname args =
        (CallResult.failure ⟨"Service not found: " ++ sid, "SERVICE_NOT_FOUND"⟩, [])) ∧
    (∀ svc, lookupService services sid = some svc →
      lookupHandler svc.handlers mname = none →
      dispatch services sid mname args =
        (CallResult.failure
          ⟨"Method not found: " ++ sid ++ "." ++ mname,
            "SERVICE_METHOD_NOT_FOUND"⟩, [])) := by
  constructor
  · intro h; simp [dispatch, h]
  · intro svc hs hm; simp [dispatch, hs, hm]

/-- **C4** — For a registered service with an after-hook, if the
before-hook or the handler raises, the call returns a failure envelope
built from the thrown error, and the after-hook runs exactly once,
with `undefined` as its result argument. -/
theorem C4_after_hook_on_failure {ρ : Type} (services : List (String × ServiceDef ρ))
    (sid mname : String) (args : List ρ) (svc : ServiceDef ρ)
    (after : String → Option ρ → Except JsError Unit)
    (hs : lookupService services sid = some svc)
    (ha : svc.afterAll = some after)
    (hm : (lookupHandler svc.handlers mname).isSome)
    (hraise : raisesBeforeHandler svc mname args) :
    ∃ e : JsError,
      (dispatch services sid mname args).1 = CallResult.failure ⟨e.message, e.name⟩ ∧
      (dispatch services sid mname args).2.filter isAfterEvent =
        [CallEvent.afterRan none] := by
  obtain ⟨h, hh⟩ := Option.isSome_iff_exists.mp hm
  rcases hraise with ⟨b, e, hb, he⟩ | ⟨hbefore, h', e, hh', he'⟩
  · refine ⟨e, ?_, ?_⟩
    · simp [dispatch, hs, hh, hb, he, catchPath, ha]
    · simp [dispatch, hs, hh, hb, he, catchPath, ha, isAfterEvent]
  · have hhe : h' = h := by rw [hh] at hh'; exact (Option.some.inj hh').symm
    subst hhe
    rcases hbefore with hnone | ⟨b, hb, hok⟩
    · refine ⟨e, ?_, ?_⟩
      · simp [dispatch, hs, hh, hnone, runHandler, he', catchPath, ha]
      · simp [dispatch, hs, hh, hnone, runHandler, he', catchPath, ha, isAfterEvent]
    · refine ⟨e, ?_, ?_⟩
      · simp [dispatch, hs, hh, hb, hok, runHandler, he', catchPath, ha]
      · simp [dispatch, hs, hh, hb, hok, runHandler, he', catchPath, ha, isAfterEvent]

/-- **C5** — With renderer writes disallowed, `ns:set` fails with
`RENDERER_WRITE_DISABLED` (the spec's `WriteForbidden`) for every key,
registered or not, leaving the ledger untouched and broadcasting
nothing; with renderer writes allowed but the key unregistered it
fails with `STORE_NOT_FOUND` (the spec's `EntityNotFound`), likewise
leaving all ledger state unchanged. -/
theorem C5_write_forbidden_and_not_found {α : Type} (b : Bool) (ser : α → Bool)
    (s : MainState α) (id : String) (v : α) :
    (nsSet ⟨false, b⟩ ser s id v =
      ⟨SetResult.errorThrown ErrorCode.RENDERER_WRITE_DISABLED, s, [],
        [ErrorCode.RENDERER_WRITE_DISABLED]⟩) ∧
    (lookupStore s.stores id = none →
      nsSet ⟨true, b⟩ ser s id v =
        ⟨SetResult.errorThrown ErrorCode.STORE_NOT_FOUND, s, [],
          [ErrorCode.STORE_NOT_FOUND]⟩) := by
  constructor
  · simp [nsSet]
  · intro h; simp [nsSet, h]

/-- **C6** — With the serialization guard enabled, a change whose value
fails the deep-copy-equivalent validation still advances the revision
by exactly 1 (and records the new value), broadcasts nothing, and
surfaces `SERIALIZATION_FAILED` through the error channel. -/
theorem C6_guard_blocks_broadcast_not_revision {α : Type} (b : Bool) (ser : α → Bool)
    (s : MainState α) (id : String) (v : α) (e : StoreEntry α)
    (h : lookupStore s.stores id = some e) (hser : ser v = false) :
    lookupStore (notify ⟨b, true⟩ ser s id v).state.stores id =
      some ⟨v, e.hasSet, e.rev + 1, e.subCount⟩ ∧
    (notify ⟨b, true⟩ ser s id v).sent = [] ∧
    (notify ⟨b, true⟩ ser s id v).errors = [ErrorCode.SERIALIZATION_FAILED] := by
  have hupd := lookupStore_update_self
    ({ e with rev := e.rev + 1, value := v }) h
  refine ⟨?_, ?_, ?_⟩
  · unfold notify
    rw [h]
    simpa [hser] using hupd
  · simp [notify, h, hser]
  · simp [notify, h, hser]

/-- **C8** — Broadcast fan-out: windows already destroyed are pruned
before any send and receive nothing; every surviving window with a
working channel is delivered to, regardless of send failures at other
windows; and a window whose send failed is removed from the window
set, so the next fan-out will not target it. -/
theorem C8_fanout_isolation (peers : List Peer) :
    (broadcastFan peers).delivered =
      (peers.filter (fun q => !q.destroyed)).filter (fun q => q.sendOk) ∧
    (broadcastFan peers).peers = (broadcastFan peers).delivered ∧
    (∀ q ∈ peers, q.destroyed = true →
      q ∉ (broadcastFan peers).delivered ∧ q ∉ (broadcastFan peers).peers) ∧
    (∀ q ∈ peers, q.destroyed = false → q.sendOk = true →
      q ∈ (broadcastFan peers).delivered) ∧
    (∀ q ∈ peers, q.sendOk = false → q ∉ (broadcastFan peers).peers) := by
  have hspec := sendLoop_spec (peers.filter (fun p => !p.destroyed))
  refine ⟨?_, ?_, ?_, ?_, ?_⟩
  · simp [broadcastFan, hspec]
  · simp [broadcastFan, hspec]
  · intro q _ hdq
    constructor
    · simp [broadcastFan, hspec, List.mem_filter, hdq]
    · simp [broadcastFan, hspec, List.mem_filter, hdq]
  · intro q hq hdq hsq
    simp [broadcastFan, hspec, List.mem_filter, hdq, hsq, hq]
  · intro q _ hsq
    simp [broadcastFan, hspec, List.mem_filter, hsq]

/-- **C9** — At-most-once initialization: registering an
already-registered key is a no-op, after registration there is exactly
one ledger row for the key and every row carries exactly one
value-holder subscription; the pending-registration queue is drained
by registering its entries in insertion order, ends up empty, and a
second drain changes nothing. -/
theorem C9_register_idempotent_drain_once {α : Type} (s : MainState α) (id : String)
    (m m' : StoreModel α) (hwf : wfStores s.stores) :
    registerStore (registerStore s id m) id m' = registerStore s id m ∧
    keyCount (registerStore s id m).stores id = 1 ∧
    (∀ p ∈ (registerStore s id m).stores,
      (p : String × StoreEntry α).2.subCount = 1) ∧
    (drainQueue s).queue = [] ∧
    drainQueue (drainQueue s) = drainQueue s ∧
    drainQueue s =
      { stores := (s.queue.foldl (fun st p => registerStore st p.1 p.2) s).stores,
        queue := [] } := by
  obtain ⟨hnd, hsub⟩ := hwf
  refine ⟨?_, ?_, ?_, rfl, ?_, rfl⟩
  · cases hl : lookupStore s.stores id with
    | some e =>
        simp [registerStore, hl]
    | none =>
        have hfound := lookupStore_append_self (⟨m.value, m.hasSet, 0, 1⟩ : StoreEntry α) hl
        simp [registerStore, hl, hfound]
  · cases hl : lookupStore s.stores id with
    | some e =>
        simp only [registerStore, hl]
        exact keyCount_of_nodup hnd hl
    | none =>
        have hz : keyCount s.stores id = 0 :=
          keyCount_eq_zero (lookupStore_none_notMem hl)
        simp only [registerStore, hl]
        unfold keyCount at hz ⊢
        simp [List.countP_append, hz]
  · cases hl : lookupStore s.stores id with
    | some e =>
        simp only [registerStore, hl]
        exact hsub
    | none =>
        simp only [registerStore, hl]
        intro p hp
        rcases List.mem_append.mp hp with h1 | h2
        · exact hsub p h1
        · simp only [List.mem_singleton] at h2
          subst h2; rfl
  · rfl

/-- **C10** — With renderer writes allowed, an `ns:set` against a
registered entity whose value holder exposes no `set` function
resolves successfully with void: no error is thrown, returned or
reported, the entity's value and revision are unchanged, and no
broadcast is emitted. -/
theorem C10_setless_store_silent_noop {α : Type} (cfg : Config) (ser : α → Bool)
    (s : MainState α) (id : String) (v : α) (e : StoreEntry α)
    (hallow : cfg.allowRendererSet = true)
    (h : lookupStore s.stores id = some e) (hset : e.hasSet = false) :
    nsSet cfg ser s id v = ⟨SetResult.ok, s, [], []⟩ := by
  simp [nsSet, hallow, h, hset]

/-- **C7** — Evaluation of the local-write listener at the failing
input for the validator contract: the declared validator type allows a
`Promise<boolean>` verdict, but since the listener compares the
verdict to `false` without awaiting, a promise-returned rejection is
ignored and the value is transmitted with no error; only a
synchronously returned `false` blocks the write and surfaces an
error. -/
theorem C7_promise_rejection_ignored :
    localWriteListener true true false
        (some (fun _ : Nat => Verdict.promise false)) 3 =
      ⟨[3], []⟩ ∧
    localWriteListener true true false
        (some (fun _ : Nat => Verdict.sync false)) 3 =
      ⟨[], [ErrorCode.SERIALIZATION_FAILED]⟩ := by
  constructor <;> rfl

/-! ## Witnesses: the claim theorems evaluated at concrete inputs -/

/-- Witness for C2: a fresh entity registered with initial value 7
reads back at revision 0, and a change notification to 8 takes the row
to revision 1. -/
theorem C2_witness :
    nsGet (registerStore (⟨[], []⟩ : MainState Nat) "counter" ⟨7, true⟩) "counter" =
      GetResult.found ⟨"counter", 0, 7⟩ ∧
    lookupStore (notify (⟨true, false⟩ : Config) (fun _ => true)
        (registerStore (⟨[], []⟩ : MainState Nat) "counter" ⟨7, true⟩)
        "counter" 8).state.stores "counter" = some ⟨8, true, 1, 1⟩ := by
  have h := C2_revision_starts_at_zero (⟨true, false⟩ : Config) (fun _ : Nat => true)
    (⟨[], []⟩ : MainState Nat) "counter" ⟨7, true⟩ rfl
  exact ⟨h.1, h.2.1 _ "counter" 8 ⟨7, true, 0, 1⟩ (by decide)⟩

/-- Witness for C3: calling an unregistered service, and an unknown
method of a registered service, at concrete inputs. -/
theorem C3_witness :
    dispatch ([] : List (String × ServiceDef Nat)) "todos" "add" [] =
      (CallResult.failure
        ⟨"Service not found: " ++ "todos", "SERVICE_NOT_FOUND"⟩, []) ∧
    dispatch [("svc", boomSvc)] "svc" "missing" [] =
      (CallResult.failure
        ⟨"Method not found: " ++ "svc" ++ "." ++ "missing",
          "SERVICE_METHOD_NOT_FOUND"⟩, []) := by
  constructor
  · exact (C3_dispatch_resolution Nat [] "todos" "add" []).1 rfl
  · exact (C3_dispatch_resolution Nat [("svc", boomSvc)] "svc" "missing" []).2
      boomSvc rfl rfl

/-- Witness for C4: a call to `boomSvc`, whose handler raises, returns
a failure envelope and runs the after-hook exactly once with an
undefined result. -/
theorem C4_witness :
    raisesBeforeHandler boomSvc "boom" [] ∧
    (∃ e : JsError,
      (dispatch [("svc", boomSvc)] "svc" "boom" []).1 =
        CallResult.failure ⟨e.message, e.name⟩ ∧
      (dispatch [("svc", boomSvc)] "svc" "boom" []).2.filter isAfterEvent =
        [CallEvent.afterRan none]) := by
  have hr : raisesBeforeHandler boomSvc "boom" [] :=
    Or.inr ⟨Or.inl rfl,
      fun _ => Except.error ⟨"Error", "kaputt"⟩, ⟨"Error", "kaputt"⟩, rfl, rfl⟩
  exact ⟨hr, C4_after_hook_on_failure [("svc", boomSvc)] "svc" "boom" [] boomSvc
    (fun _ _ => Except.ok ()) rfl rfl rfl hr⟩

/-- Witness for C5: with writes disabled `ns:set` on the empty ledger
throws `RENDERER_WRITE_DISABLED`, with writes enabled it throws
`STORE_NOT_FOUND`; both leave the state untouched. -/
theorem C5_witness :
    nsSet (⟨false, false⟩ : Config) (fun _ : Nat => true) ⟨[], []⟩ "k" 5 =
      ⟨SetResult.errorThrown ErrorCode.RENDERER_WRITE_DISABLED, ⟨[], []⟩, [],
        [ErrorCode.RENDERER_WRITE_DISABLED]⟩ ∧
    nsSet (⟨true, false⟩ : Config) (fun _ : Nat => true) ⟨[], []⟩ "k" 5 =
      ⟨SetResult.errorThrown ErrorCode.STORE_NOT_FOUND, ⟨[], []⟩, [],
        [ErrorCode.STORE_NOT_FOUND]⟩ := by
  refine ⟨(C5_write_forbidden_and_not_found false (fun _ : Nat => true)
    ⟨[], []⟩ "k" 5).1, ?_⟩
  exact (C5_write_forbidden_and_not_found false (fun _ : Nat => true)
    ⟨[], []⟩ "k" 5).2 rfl

/-- Witness for C6: a non-serializable change on a row at revision 4
advances it to revision 5, broadcasts nothing, and surfaces
`SERIALIZATION_FAILED`. -/
theorem C6_witness :
    lookupStore (notify (⟨true, true⟩ : Config) (fun _ : Nat => false)
        ⟨[("k", ⟨0, true, 4, 1⟩)], []⟩ "k" 9).state.stores "k" =
      some ⟨9, true, 5, 1⟩ ∧
    (notify (⟨true, true⟩ : Config) (fun _ : Nat => false)
        ⟨[("k", ⟨0, true, 4, 1⟩)], []⟩ "k" 9).sent = [] ∧
    (notify (⟨true, true⟩ : Config) (fun _ : Nat => false)
        ⟨[("k", ⟨0, true, 4, 1⟩)], []⟩ "k" 9).errors =
      [ErrorCode.SERIALIZATION_FAILED] :=
  C6_guard_blocks_broadcast_not_revision true (fun _ : Nat => false)
    ⟨[("k", ⟨0, true, 4, 1⟩)], []⟩ "k" 9 ⟨0, true, 4, 1⟩ (by decide) rfl

/-- Witness for C8: over a destroyed window, a live window and a
window whose send fails, only the live working window remains and is
delivered to. -/
theorem C8_witness :
    (⟨1, true, true⟩ : Peer) ∉
      (broadcastFan [⟨1, true, true⟩, ⟨2, false, true⟩, ⟨3, false, false⟩]).peers ∧
    (⟨2, false, true⟩ : Peer) ∈
      (broadcastFan [⟨1, true, true⟩, ⟨2, false, true⟩, ⟨3, false, false⟩]).delivered ∧
    (⟨3, false, false⟩ : Peer) ∉
      (broadcastFan [⟨1, true, true⟩, ⟨2, false, true⟩, ⟨3, false, false⟩]).peers := by
  have h := C8_fanout_isolation [⟨1, true, true⟩, ⟨2, false, true⟩, ⟨3, false, false⟩]
  exact ⟨(h.2.2.1 _ (by decide) rfl).2, h.2.2.2.1 _ (by decide) rfl rfl,
    h.2.2.2.2 _ (by decide) rfl⟩

/-- Witness for C9: on a state with one queued store, re-registering a
key is a no-op, the key has exactly one row, and draining empties the
queue with a second drain changing nothing. -/
theorem C9_witness :
    registerStore (registerStore (⟨[], [("q", ⟨1, true⟩)]⟩ : MainState Nat)
        "k" ⟨2, true⟩) "k" ⟨3, false⟩ =
      registerStore ⟨[], [("q", ⟨1, true⟩)]⟩ "k" ⟨2, true⟩ ∧
    keyCount (registerStore (⟨[], [("q", ⟨1, true⟩)]⟩ : MainState Nat)
        "k" ⟨2, true⟩).stores "k" = 1 ∧
    (drainQueue (⟨[], [("q", ⟨1, true⟩)]⟩ : MainState Nat)).queue = [] ∧
    drainQueue (drainQueue (⟨[], [("q", ⟨1, true⟩)]⟩ : MainState Nat)) =
      drainQueue ⟨[], [("q", ⟨1, true⟩)]⟩ := by
  have h := C9_register_idempotent_drain_once (⟨[], [("q", ⟨1, true⟩)]⟩ : MainState Nat)
    "k" ⟨2, true⟩ ⟨3, false⟩ ⟨List.nodup_nil, by simp⟩
  exact ⟨h.1, h.2.1, h.2.2.2.1, h.2.2.2.2.1⟩

/-- Witness for C10: an allowed `ns:set` against a registered entity
whose holder has no `set` resolves void and changes nothing. -/
theorem C10_witness :
    nsSet (⟨true, false⟩ : Config) (fun _ : Nat => true)
        ⟨[("k", ⟨0, false, 2, 1⟩)], []⟩ "k" 7 =
      ⟨SetResult.ok, ⟨[("k", ⟨0, false, 2, 1⟩)], []⟩, [], []⟩ :=
  C10_setless_store_silent_noop ⟨true, false⟩ (fun _ : Nat => true)
    ⟨[("k", ⟨0, false, 2, 1⟩)], []⟩ "k" 7 ⟨0, false, 2, 1⟩ rfl (by decide) rfl

end NanoBridge
